import Mathlib

/-!
Verification of the tunnel-and-child-process orchestration in
`packages/pg-v5/lib/psql.js` (heroku CLI, pg-v5 plugin).

The JavaScript source is shallowly embedded: synchronous pieces become pure
functions, the event-driven pieces (Node `EventEmitter` with `events.once`)
become explicit state machines over waiter lists, and promise rejection
becomes `Except JsError`.  External Node primitives (`fs.existsSync`,
`path.dirname`, the file system) are passed in as oracle parameters.
-/

/-- A JavaScript `Error` as observed by this module: its message and its
optional `code` property (for example `'ENOENT'` on a failed `spawn`). -/
structure JsError where
  message : String
  code : Option String
deriving DecidableEq, Repr

/-! ## JavaScript value coercion used by `waitForPSQLExit`

`await once(psql, 'close')` resolves with the *array* of arguments that the
`'close'` event was emitted with, i.e. `[code, signal]` where exactly one of
the two is `null`.  Line 97 then compares this array with `> 0`.  The
JavaScript abstract relational comparison converts the array with
`ToPrimitive` (which is `Array.prototype.join(',')`, rendering `null` as the
empty string) and then applies `ToNumber` to the resulting string; a string
that is not a numeric literal yields `NaN`, and every comparison against
`NaN` is `false`.  We model exactly the values reachable here: integers,
signal names such as `"SIGKILL"`, and `null`. -/

/-- One slot of the argument array delivered by a Node `'close'` event:
the exit code (an integer or `null`) or the terminating signal (a string
or `null`). -/
inductive JsArg where
  | intV (n : Int)
  | strV (s : String)
  | nullV
deriving DecidableEq, Repr

/-- How `Array.prototype.join` renders one element: numbers print in
decimal, strings stay, `null` becomes the empty string. -/
def JsArg.joinPiece : JsArg → String
  | .intV n => toString n
  | .strV s => s
  | .nullV => ""

/-- `Array.prototype.join(',')`, the `ToPrimitive` of an array. -/
def jsArrayJoin (xs : List JsArg) : String :=
  String.intercalate "," (xs.map JsArg.joinPiece)

/-- Accumulating decimal parser: consumes the remaining characters, failing
on the first non-digit (helper for `jsStringToNumber`). -/
def decNatAux : List Char → Nat → Option Nat
  | [], acc => some acc
  | c :: rest, acc =>
    if c.isDigit then decNatAux rest (acc * 10 + (c.toNat - '0'.toNat)) else none

/-- A non-empty all-digit character list read as a decimal number. -/
def decNat? : List Char → Option Nat
  | [] => none
  | cs => decNatAux cs 0

/-- JavaScript `ToNumber` on a string, restricted to the string shapes
reachable from `'close'` event arguments: the empty string is `0`, a
decimal integer literal (optionally negative) is its value, anything else
(in particular any string containing a comma) is `NaN`, modelled as
`none`. -/
def jsStringToNumber (s : String) : Option Int :=
  match s.data with
  | [] => some 0
  | '-' :: rest => (decNat? rest).map (fun n => -(n : Int))
  | cs => (decNat? cs).map (fun n => (n : Int))

/-- The JavaScript comparison `arr > 0` for an argument array: `ToPrimitive`
via `join(',')`, then `ToNumber`; a `NaN` comparison is `false`. -/
def jsArrayGtZero (xs : List JsArg) : Bool :=
  match jsStringToNumber (jsArrayJoin xs) with
  | some n => decide (0 < n)
  | none => false

/-! ## `waitForPSQLExit` (psql.js lines 94–110) -/

/-- The settlement of `once(psql, 'close')`: either the child emitted
`'close'` with arguments `(code, signal)` and the promise resolves with the
argument array, or the child emitted `'error'` (for example a spawn failure)
and the promise rejects with that error. -/
inductive PsqlWaitEvent where
  | closeEv (code : JsArg) (signal : JsArg)
  | errorEv (err : JsError)
deriving DecidableEq, Repr

/-- The actionable install-help message of psql.js line 105. -/
def enoentHelpMessage : String :=
  "The local psql command could not be located. For help installing psql, see https://devcenter.heroku.com/articles/heroku-postgresql#local-setup"

/-- `waitForPSQLExit` (lines 94–110).  `exitCode` is the argument array of
the `'close'` event (not destructured), compared with `> 0`; a thrown error
is routed through the `catch`, which replaces an error whose `code` is
`'ENOENT'` with the install-help error and rethrows anything else
unchanged. -/
def waitForPSQLExit (ev : PsqlWaitEvent) : Except JsError Unit :=
  match ev with
  | .closeEv code signal =>
    let exitCode : List JsArg := [code, signal]
    if jsArrayGtZero exitCode then
      Except.error { message := "psql exited with code " ++ jsArrayJoin exitCode,
                     code := none }
    else
      Except.ok ()
  | .errorEv err =>
    if err.code = some "ENOENT" then
      Except.error { message := enoentHelpMessage, code := none }
    else
      Except.error err

/-! ## `kill` (psql.js lines 116–121)

```js
function kill (childProcess, signal) {
  if (!childProcess.killed) {
    psql('killing psql child process')
    childProcess.kill(signal)
  }
}
```

The identifier `psql` is not bound anywhere in the module (the module
defines `psqlQueryOptions`, `psqlFileOptions`, `psqlInteractiveOptions`,
`execPSQL`, `waitForPSQLExit`, `kill`, …, but no `psql`), so whenever the
guard passes the call on line 118 raises
`ReferenceError: psql is not defined` before any signal is sent. -/

/-- The observable state of a Node `ChildProcess` handle used by `kill`:
`killed` is Node's `subprocess.killed`, true exactly when an earlier
`subprocess.kill()` successfully sent a signal (it does **not** record that
the process exited on its own); `exited` records that the OS process has
terminated. -/
structure ChildProcess where
  killed : Bool
  exited : Bool
deriving DecidableEq, Repr

/-- The error raised by evaluating the unbound identifier `psql` on
line 118. -/
def referenceErrorPsqlNotDefined : JsError :=
  { message := "psql is not defined", code := none }

/-- `kill` (lines 116–121): if `childProcess.killed` is already true the
body is skipped; otherwise line 118 evaluates the unbound identifier `psql`
and raises a `ReferenceError`, so `childProcess.kill(signal)` on line 119 is
never reached and no signal is ever delivered by this function. -/
def kill (childProcess : ChildProcess) (_signal : String) :
    Except JsError ChildProcess :=
  if childProcess.killed then
    Except.ok childProcess
  else
    Except.error referenceErrorPsqlNotDefined

/-! ## `trapAndForwardSignalsToChildProcess` (psql.js lines 126–143)

The only trapped signal is `SIGINT`.  Node keeps an ordered list of
listeners per event; we identify listeners by natural-number ids and model
the orchestrator process's `SIGINT` listener list as a `List Nat`. -/

/-- `process.removeAllListeners(signal)`: the listener list becomes
empty. -/
def removeAllListeners (_listeners : List Nat) : List Nat := []

/-- `process.on(signal, listener)`: appends the listener. -/
def processOn (listeners : List Nat) (l : Nat) : List Nat :=
  listeners ++ [l]

/-- Removes the first matching listener of a list (helper for
`removeListenerLast`). -/
def removeFirst : List Nat → Nat → List Nat
  | [], _ => []
  | x :: xs, l => if x = l then xs else x :: removeFirst xs l

/-- `process.removeListener(signal, listener)`: removes the most recently
added matching instance. -/
def removeListenerLast (listeners : List Nat) (l : Nat) : List Nat :=
  (removeFirst listeners.reverse l).reverse

/-- The installation phase of `trapAndForwardSignalsToChildProcess`
(lines 128–133) acting on the `SIGINT` listener list: for the one trapped
signal it calls `process.removeAllListeners('SIGINT')` and then installs the
fresh forwarding listener with `process.on`. -/
def trapAndForwardSignalsToChildProcess (listeners : List Nat) (fresh : Nat) :
    List Nat :=
  processOn (removeAllListeners listeners) fresh

/-- The `cleanup` closure returned by `trapAndForwardSignalsToChildProcess`
(lines 136–140): `process.removeListener('SIGINT', listener)` for the
installed listener. -/
def signalTrapsCleanup (listeners : List Nat) (fresh : Nat) : List Nat :=
  removeListenerLast listeners fresh

/-! ## The `Tunnel` class (psql.js lines 176–212)

A `Tunnel` wraps an optional bastion tunnel.  The synthetic (no-bastion)
path uses a private `EventEmitter` (`this.events`): `waitForClose` registers
a one-shot waiter with `once(this.events, 'close')`, and `close` emits the
`'close'` event, which resolves every waiter currently registered and
nothing else — an emission with no registered waiter is simply dropped
(Node `EventEmitter`s do not latch events). -/

/-- The state of the private `this.events` emitter restricted to its only
event, `'close'`: the one-shot waiters currently registered (in
registration order) and the waiters that have been resolved so far.
Waiters are identified by natural-number ids. -/
structure FakeCloseEmitter where
  pending : List Nat
  resolved : List Nat
deriving DecidableEq, Repr

/-- `this.events.emit('close', 0)` (line 204): every currently registered
one-shot waiter resolves; an emission with no registered waiter is
dropped. -/
def FakeCloseEmitter.emitClose (s : FakeCloseEmitter) : FakeCloseEmitter :=
  { pending := [], resolved := s.resolved ++ s.pending }

/-- `await once(this.events, 'close')` (line 194), registration step:
a fresh one-shot waiter is appended. -/
def FakeCloseEmitter.onceClose (s : FakeCloseEmitter) (w : Nat) :
    FakeCloseEmitter :=
  { s with pending := s.pending ++ [w] }

/-- The underlying bastion tunnel session.

Modelled from the spec: `bastion.js` (and the tunnel-ssh session it
returns) is not under `src/`; per the spec's TunnelHandle data model,
`close()` on a real tunnel is idempotent teardown of the transport, so the
session is a single `closed` flag. -/
structure BastionTunnel where
  closed : Bool
deriving DecidableEq, Repr

/-- Modelled from the spec: releasing the underlying transport; idempotent
per the spec's TunnelHandle invariant. -/
def BastionTunnel.close (b : BastionTunnel) : BastionTunnel :=
  { b with closed := true }

/-- The `Tunnel` wrapper (constructor, lines 177–180): an optional bastion
tunnel plus the private `EventEmitter`. -/
structure Tunnel where
  bastionTunnel : Option BastionTunnel
  events : FakeCloseEmitter
deriving DecidableEq, Repr

/-- `Tunnel.close` (lines 198–206): with a bastion tunnel it delegates to
`this.bastionTunnel.close()`; otherwise it emits the fake `'close'` event
on `this.events`. -/
def Tunnel.close (t : Tunnel) : Tunnel :=
  match t.bastionTunnel with
  | some b => { t with bastionTunnel := some (BastionTunnel.close b) }
  | none => { t with events := t.events.emitClose }

/-- `Tunnel.waitForClose` in the no-bastion branch (lines 192–195),
registration step: registers a one-shot waiter on `this.events`. -/
def Tunnel.waitForCloseRegister (t : Tunnel) (w : Nat) : Tunnel :=
  { t with events := t.events.onceClose w }

/-- What the underlying transport of a real tunnel eventually reports while
`once(this.bastionTunnel, 'close')` is pending: a `'close'` event or an
`'error'` event (which rejects the `once` promise). -/
inductive TransportEvent where
  | closeEv
  | errorEv (err : JsError)
deriving DecidableEq, Repr

/-- `Tunnel.waitForClose` in the bastion branch (lines 183–191): the await
resolves on the transport's `'close'`; any rejection is caught and replaced
by `new Error('Secure tunnel to your database failed')`. -/
def Tunnel.waitForCloseBastion (ev : TransportEvent) : Except JsError Unit :=
  match ev with
  | .closeEv => Except.ok ()
  | .errorEv _ =>
    Except.error { message := "Secure tunnel to your database failed", code := none }

/-! ### Trace semantics for the synthetic close event -/

/-- Operations the orchestrator can perform on the synthetic emitter:
register a `waitForClose` waiter, or call `close()`. -/
inductive SynOp where
  | wait (w : Nat)
  | close
deriving DecidableEq, Repr

/-- One operation on the synthetic emitter. -/
def synStep (s : FakeCloseEmitter) : SynOp → FakeCloseEmitter
  | .wait w => s.onceClose w
  | .close => s.emitClose

/-- A sequence of operations on the synthetic emitter. -/
def synRun : FakeCloseEmitter → List SynOp → FakeCloseEmitter
  | s, [] => s
  | s, op :: ops => synRun (synStep s op) ops

/-! ## `runWithTunnel` (psql.js lines 145–171)

```js
try {
  await Promise.race([waitForPSQLExit(psql), tunnel.waitForClose()])
} catch (err) { throw err } finally {
  cleanupSignalTraps()
  tunnel.close()
  kill(psql, 'SIGKILL')
}
```

JavaScript `finally` semantics: the three calls run in order with no
per-step protection, so an exception thrown by one of them skips the later
steps, and an abrupt completion of the `finally` block *replaces* the
completion of the `try` block (the race outcome). -/

/-- The mutable state `runWithTunnel` tears down: the orchestrator's
`SIGINT` listener list, the tunnel, and the psql child handle. -/
structure OrchState where
  sigintListeners : List Nat
  tunnel : Tunnel
  child : ChildProcess
deriving DecidableEq, Repr

/-- The `finally` block of `runWithTunnel` (lines 164–170):
`cleanupSignalTraps()` (cannot throw), then `tunnel.close()` (cannot throw
in this model), then `kill(psql, 'SIGKILL')`, whose exception — if any —
aborts the block. -/
def runWithTunnelFinally (s : OrchState) (fresh : Nat) :
    Except JsError OrchState :=
  let s1 : OrchState := { s with sigintListeners := signalTrapsCleanup s.sigintListeners fresh }
  let s2 : OrchState := { s1 with tunnel := s1.tunnel.close }
  match kill s2.child "SIGKILL" with
  | Except.error e => Except.error e
  | Except.ok c => Except.ok { s2 with child := c }

/-- The overall completion of `runWithTunnel` given the settlement of the
race (lines 152–170): if the `finally` block completes abruptly, its
exception replaces the race outcome; otherwise the race outcome (value or
rethrown error) is what the caller observes. -/
def runWithTunnelOutcome (race : Except JsError Unit) (s : OrchState)
    (fresh : Nat) : Except JsError Unit :=
  match runWithTunnelFinally s fresh with
  | Except.error e => Except.error e
  | Except.ok _ => race

/-! ## `psqlInteractiveOptions` (psql.js lines 44–73) -/

/-- The Node primitives `psqlInteractiveOptions` consults, passed in as
oracles: `fs.existsSync`, `fs.statSync(p).isDirectory()` (only queried for
paths that exist), and `path.dirname`. -/
structure FsModel where
  existsSync : String → Bool
  isDirectory : String → Bool
  dirname : String → String

/-- `prompt.split(':')[0]`: the prefix of the prompt before its first
`':'` (the whole prompt when it has none). -/
def promptHead (prompt : String) : String :=
  (prompt.splitOn ":").headD ""

/-- The result of an options builder: the argument list handed to `spawn`
plus the warnings emitted via `cli.warn` while building it. -/
structure PsqlOptionsResult where
  psqlArgs : List String
  warnings : List String
deriving DecidableEq, Repr

/-- `psqlInteractiveOptions` (lines 44–73), restricted to its `psqlArgs`
and warnings (the `dbEnv` and `childProcessOptions` fields are passed
through unchanged).  `historyVar` is `process.env.HEROKU_PSQL_HISTORY`; the
JavaScript truthiness test on line 47 skips the whole block when the
variable is unset or set to the empty string. -/
def psqlInteractiveOptions (fs : FsModel) (historyVar : Option String)
    (prompt : String) : PsqlOptionsResult :=
  let base := ["--set", "PROMPT1=" ++ prompt, "--set", "PROMPT2=" ++ prompt]
  let step : PsqlOptionsResult :=
    match historyVar with
    | none => { psqlArgs := base, warnings := [] }
    | some p =>
      if p = "" then
        { psqlArgs := base, warnings := [] }
      else if fs.existsSync p && fs.isDirectory p then
        { psqlArgs := base ++ ["--set", "HISTFILE=" ++ p ++ "/" ++ promptHead prompt],
          warnings := [] }
      else if fs.existsSync (fs.dirname p) then
        { psqlArgs := base ++ ["--set", "HISTFILE=" ++ p], warnings := [] }
      else
        { psqlArgs := base,
          warnings := ["HEROKU_PSQL_HISTORY is set but is not a valid path (" ++ p ++ ")"] }
  { step with psqlArgs := step.psqlArgs ++ ["--set", "sslmode=require"] }

/-! ## Claims -/

/-- Claim C2.  The spec says a child that spawns successfully and exits
with non-zero code `n` makes `waitForPSQLExit` reject with an error
reporting that code.  The code instead resolves successfully: `once`
delivers the argument array `[2, null]`, whose JavaScript comparison
`[2, null] > 0` coerces through `"2,"` to `NaN` and is therefore `false`,
so the guard on line 97 never fires. -/
theorem waitForPSQLExit_exit_code_two_resolves :
    waitForPSQLExit (PsqlWaitEvent.closeEv (JsArg.intV 2) JsArg.nullV) =
      Except.ok () := by
  rfl

/-- Claim C3.  The spec says `kill` on an already-terminated child performs
no signal delivery and does not raise an error.  For a child that exited on
its own, `subprocess.killed` is `false`, so the guard passes and line 118
evaluates the unbound identifier `psql`, raising
`ReferenceError: psql is not defined`. -/
theorem kill_on_exited_child_raises :
    kill { killed := false, exited := true } "SIGKILL" =
      Except.error referenceErrorPsqlNotDefined := by
  rfl

/-- Claim C1.  The spec says a teardown error never replaces the race
outcome.  In a run where the child was never signalled (`killed = false`,
the normal case, e.g. the child exited cleanly), the `finally` block's
`kill(psql, 'SIGKILL')` raises the `ReferenceError` from line 118, and by
JavaScript `finally` semantics that exception replaces the race outcome:
the caller observes the teardown error instead of the successful race
result. -/
theorem runWithTunnel_teardown_error_replaces_outcome :
    runWithTunnelOutcome (Except.ok ())
        { sigintListeners := [3],
          tunnel := { bastionTunnel := none, events := { pending := [], resolved := [] } },
          child := { killed := false, exited := true } } 3 =
      Except.error referenceErrorPsqlNotDefined ∧
    (Except.error referenceErrorPsqlNotDefined : Except JsError Unit) ≠
      Except.ok () := by
  refine ⟨rfl, ?_⟩
  intro h
  exact Except.noConfusion h

/-- Claim C7.  If the transport of a real tunnel reports an error while
`waitForClose` is pending, the wait rejects with the constant wrapped
message `Secure tunnel to your database failed`; the result is the same
for every transport error, so no lower-level detail is exposed. -/
theorem waitForClose_transport_error_wrapped (err : JsError) :
    Tunnel.waitForCloseBastion (TransportEvent.errorEv err) =
      Except.error { message := "Secure tunnel to your database failed", code := none } := by
  rfl

/-- Claim C8.  A `'not found'` (`ENOENT`) failure while locating or
spawning psql makes the wait reject with the specific actionable
install-help message — whatever the raw OS-level error message was — and
that outcome is distinct from the outcome of a successfully spawned
process exiting non-zero (which, in this code, resolves). -/
theorem waitForPSQLExit_enoent_install_help (msg : String) :
    waitForPSQLExit (PsqlWaitEvent.errorEv { message := msg, code := some "ENOENT" }) =
      Except.error { message := enoentHelpMessage, code := none } ∧
    waitForPSQLExit (PsqlWaitEvent.errorEv { message := msg, code := some "ENOENT" }) ≠
      waitForPSQLExit (PsqlWaitEvent.closeEv (JsArg.intV 2) JsArg.nullV) := by
  have hc : waitForPSQLExit (PsqlWaitEvent.closeEv (JsArg.intV 2) JsArg.nullV) =
      Except.ok () := rfl
  have he : waitForPSQLExit (PsqlWaitEvent.errorEv { message := msg, code := some "ENOENT" }) =
      Except.error { message := enoentHelpMessage, code := none } := rfl
  refine ⟨he, ?_⟩
  rw [he, hc]
  intro h
  exact Except.noConfusion h

/-- Claim C4, counterexample.  With one pre-existing `SIGINT` listener
(id 7), installing the forwarder (id 3) and then running the returned
cleanup leaves the listener list empty, not equal to its prior state: the
pre-existing handler was discarded by `removeAllListeners` and never
restored. -/
theorem signalTraps_prior_state_not_restored :
    signalTrapsCleanup (trapAndForwardSignalsToChildProcess [7] 3) 3 ≠ [7] := by
  decide

/-- Claim C4, amended.  The cleanup returned by
`trapAndForwardSignalsToChildProcess` removes the installed forwarding
handler, leaving the `SIGINT` listener list empty after every run — so the
forwarder never outlives one run — but the prior handler state is restored
only when there were no prior listeners (any pre-existing listeners were
dropped by `removeAllListeners` at install time). -/
theorem signalTraps_cleanup_removes_forwarder (prior : List Nat) (fresh : Nat) :
    signalTrapsCleanup (trapAndForwardSignalsToChildProcess prior fresh) fresh = [] ∧
    (signalTrapsCleanup (trapAndForwardSignalsToChildProcess prior fresh) fresh = prior ↔
      prior = []) := by
  have h : signalTrapsCleanup (trapAndForwardSignalsToChildProcess prior fresh) fresh = [] := by
    simp [signalTrapsCleanup, trapAndForwardSignalsToChildProcess, processOn,
      removeAllListeners, removeListenerLast, removeFirst]
  refine ⟨h, ?_⟩
  rw [h]
  exact eq_comm

/-- Claim C6.  Closing any `Tunnel`, real or synthetic, twice in
succession yields the same state as closing it once: for a real tunnel the
underlying transport close is idempotent, and for a synthetic handle the
second fake `'close'` emission finds no registered waiter and changes
nothing. -/
theorem tunnel_close_idempotent (t : Tunnel) : t.close.close = t.close := by
  obtain ⟨bt, ev⟩ := t
  cases bt with
  | none => simp [Tunnel.close, FakeCloseEmitter.emitClose]
  | some b => simp [Tunnel.close, BastionTunnel.close]

/-- Helper: the set of resolved waiters of the synthetic emitter only
changes when `close()` is called — a trace containing no `close` leaves
`resolved` untouched. -/
theorem synRun_resolved_of_no_close (ops : List SynOp) :
    ∀ s : FakeCloseEmitter, (∀ o ∈ ops, o ≠ SynOp.close) →
      (synRun s ops).resolved = s.resolved := by
  induction ops with
  | nil => intro s _; rfl
  | cons op ops ih =>
    intro s h
    have hop : op ≠ SynOp.close := h op (List.mem_cons_self op ops)
    have hops : ∀ o ∈ ops, o ≠ SynOp.close := fun o ho => h o (List.mem_cons_of_mem op ho)
    cases op with
    | wait w =>
      show (synRun (s.onceClose w) ops).resolved = s.resolved
      rw [ih _ hops]
      rfl
    | close => exact absurd rfl hop

/-- Claim C5.  For a no-bastion `Tunnel` and a fresh waiter `w`:
a pending `waitForClose` never resolves on its own (no trace of further
registrations resolves it without a `close()`), while a single `close()`
call resolves it exactly once, empties the pending list, and touches no
real tunnel (the handle still has no bastion tunnel). -/
theorem tunnel_no_bastion_wait_close (t : Tunnel) (w : Nat) (ops : List SynOp)
    (hb : t.bastionTunnel = none)
    (hres : w ∉ t.events.resolved) (hpend : w ∉ t.events.pending)
    (hnoclose : ∀ o ∈ ops, o ≠ SynOp.close) :
    w ∉ (synRun (t.waitForCloseRegister w).events ops).resolved ∧
    ((t.waitForCloseRegister w).close).events.resolved.count w = 1 ∧
    ((t.waitForCloseRegister w).close).events.pending = [] ∧
    ((t.waitForCloseRegister w).close).bastionTunnel = none := by
  obtain ⟨bt, ev⟩ := t
  simp only at hb
  subst hb
  refine ⟨?_, ?_, rfl, rfl⟩
  · rw [synRun_resolved_of_no_close ops _ hnoclose]
    exact hres
  · show (ev.resolved ++ (ev.pending ++ [w])).count w = 1
    rw [List.count_append, List.count_append]
    rw [List.count_eq_zero.mpr hres, List.count_eq_zero.mpr hpend]
    simp

/-- Claim C5 witness: the empty synthetic tunnel, waiter 0, and a trace
that registers another waiter but never closes. -/
theorem tunnel_no_bastion_wait_close_witness :
    (Tunnel.mk none ⟨[], []⟩).bastionTunnel = none ∧
    0 ∉ (Tunnel.mk none (FakeCloseEmitter.mk [] [])).events.resolved ∧
    0 ∉ (Tunnel.mk none (FakeCloseEmitter.mk [] [])).events.pending ∧
    (∀ o ∈ [SynOp.wait 1], o ≠ SynOp.close) ∧
    (0 ∉ (synRun ((Tunnel.mk none (FakeCloseEmitter.mk [] [])).waitForCloseRegister 0).events
        [SynOp.wait 1]).resolved ∧
      (((Tunnel.mk none (FakeCloseEmitter.mk [] [])).waitForCloseRegister 0).close).events.resolved.count 0 = 1 ∧
      (((Tunnel.mk none (FakeCloseEmitter.mk [] [])).waitForCloseRegister 0).close).events.pending = [] ∧
      (((Tunnel.mk none (FakeCloseEmitter.mk [] [])).waitForCloseRegister 0).close).bastionTunnel = none) :=
  ⟨rfl, by decide, by decide, by decide,
    tunnel_no_bastion_wait_close (Tunnel.mk none (FakeCloseEmitter.mk [] [])) 0
      [SynOp.wait 1] rfl (by decide) (by decide) (by decide)⟩

/-- Claim C9.  The synthetic close event is not latched: calling `close()`
on a no-bastion tunnel with no pending waiter changes nothing (the emitted
event is dropped), and a `waitForClose` registered afterwards stays
unresolved under any continuation that contains no further `close()`. -/
theorem tunnel_no_bastion_close_event_lost (t : Tunnel) (w : Nat) (ops : List SynOp)
    (hb : t.bastionTunnel = none)
    (hpend : t.events.pending = [])
    (hres : w ∉ t.events.resolved)
    (hnoclose : ∀ o ∈ ops, o ≠ SynOp.close) :
    t.close.events = t.events ∧
    w ∉ (synRun ((t.close.waitForCloseRegister w).events) ops).resolved := by
  obtain ⟨bt, ev⟩ := t
  simp only at hb hpend hres
  subst hb
  obtain ⟨pending, resolved⟩ := ev
  simp only at hpend hres
  subst hpend
  constructor
  · show FakeCloseEmitter.mk [] (resolved ++ []) = FakeCloseEmitter.mk [] resolved
    rw [List.append_nil]
  · rw [synRun_resolved_of_no_close ops _ hnoclose]
    show w ∉ resolved ++ []
    rw [List.append_nil]
    exact hres

/-- Claim C9 witness: a synthetic tunnel with no pending waiter; `close()`
first, then waiter 0 registers, then another waiter registers and no
further close occurs. -/
theorem tunnel_no_bastion_close_event_lost_witness :
    (Tunnel.mk none (FakeCloseEmitter.mk [] [])).bastionTunnel = none ∧
    (Tunnel.mk none (FakeCloseEmitter.mk [] [])).events.pending = [] ∧
    0 ∉ (Tunnel.mk none (FakeCloseEmitter.mk [] [])).events.resolved ∧
    (∀ o ∈ [SynOp.wait 1], o ≠ SynOp.close) ∧
    ((Tunnel.mk none (FakeCloseEmitter.mk [] [])).close.events =
        (Tunnel.mk none (FakeCloseEmitter.mk [] [])).events ∧
      0 ∉ (synRun (((Tunnel.mk none (FakeCloseEmitter.mk [] [])).close.waitForCloseRegister 0).events)
          [SynOp.wait 1]).resolved) :=
  ⟨rfl, rfl, by decide, by decide,
    tunnel_no_bastion_close_event_lost (Tunnel.mk none (FakeCloseEmitter.mk [] [])) 0
      [SynOp.wait 1] rfl rfl (by decide) (by decide)⟩ 

/-- Claim C10.  In interactive mode with `HEROKU_PSQL_HISTORY` set (to a
non-empty value; the truthiness test on line 47 treats the empty string as
unset): if the path is an existing directory, psql receives `HISTFILE` set
to the directory joined with the prefix of the prompt before its first
`':'`; otherwise, if the path's parent directory exists, `HISTFILE` is set
to the path itself; otherwise a warning is emitted, no `HISTFILE` argument
is passed, and psql is still launched with the remaining arguments. -/
theorem psqlInteractiveOptions_history_cases (fs : FsModel) (p prompt : String)
    (hp : p ≠ "") :
    ((fs.existsSync p && fs.isDirectory p) = true →
      psqlInteractiveOptions fs (some p) prompt =
        { psqlArgs := ["--set", "PROMPT1=" ++ prompt, "--set", "PROMPT2=" ++ prompt,
            "--set", "HISTFILE=" ++ p ++ "/" ++ promptHead prompt,
            "--set", "sslmode=require"],
          warnings := [] }) ∧
    ((fs.existsSync p && fs.isDirectory p) = false →
      fs.existsSync (fs.dirname p) = true →
      psqlInteractiveOptions fs (some p) prompt =
        { psqlArgs := ["--set", "PROMPT1=" ++ prompt, "--set", "PROMPT2=" ++ prompt,
            "--set", "HISTFILE=" ++ p,
            "--set", "sslmode=require"],
          warnings := [] }) ∧
    ((fs.existsSync p && fs.isDirectory p) = false →
      fs.existsSync (fs.dirname p) = false →
      psqlInteractiveOptions fs (some p) prompt =
        { psqlArgs := ["--set", "PROMPT1=" ++ prompt, "--set", "PROMPT2=" ++ prompt,
            "--set", "sslmode=require"],
          warnings := ["HEROKU_PSQL_HISTORY is set but is not a valid path (" ++ p ++ ")"] }) := by
  refine ⟨fun h1 => ?_, fun h1 h2 => ?_, fun h1 h2 => ?_⟩
  · simp [psqlInteractiveOptions, hp, h1]
  · simp [psqlInteractiveOptions, hp, h1, h2]
  · simp [psqlInteractiveOptions, hp, h1, h2]

/-- An oracle for the C10 witness: nothing exists on disk. -/
def fsNothing : FsModel :=
  { existsSync := fun _ => false, isDirectory := fun _ => false, dirname := fun _ => "/" }

/-- Claim C10 witness: the history variable set to `"h"` with a file system
on which neither the path nor its parent exists, prompt `app::db`. -/
theorem psqlInteractiveOptions_history_cases_witness :
    ("h" ≠ "") ∧
    (((fsNothing.existsSync "h" && fsNothing.isDirectory "h") = true →
      psqlInteractiveOptions fsNothing (some "h") "app::db" =
        { psqlArgs := ["--set", "PROMPT1=" ++ "app::db", "--set", "PROMPT2=" ++ "app::db",
            "--set", "HISTFILE=" ++ "h" ++ "/" ++ promptHead "app::db",
            "--set", "sslmode=require"],
          warnings := [] }) ∧
    ((fsNothing.existsSync "h" && fsNothing.isDirectory "h") = false →
      fsNothing.existsSync (fsNothing.dirname "h") = true →
      psqlInteractiveOptions fsNothing (some "h") "app::db" =
        { psqlArgs := ["--set", "PROMPT1=" ++ "app::db", "--set", "PROMPT2=" ++ "app::db",
            "--set", "HISTFILE=" ++ "h",
            "--set", "sslmode=require"],
          warnings := [] }) ∧
    ((fsNothing.existsSync "h" && fsNothing.isDirectory "h") = false →
      fsNothing.existsSync (fsNothing.dirname "h") = false →
      psqlInteractiveOptions fsNothing (some "h") "app::db" =
        { psqlArgs := ["--set", "PROMPT1=" ++ "app::db", "--set", "PROMPT2=" ++ "app::db",
            "--set", "sslmode=require"],
          warnings := ["HEROKU_PSQL_HISTORY is set but is not a valid path (" ++ "h" ++ ")"] })) :=
  ⟨by decide, psqlInteractiveOptions_history_cases fsNothing "h" "app::db" (by decide)⟩

/-- Claim C4 witness: prior listener 7, forwarder 3. -/
theorem signalTraps_cleanup_removes_forwarder_witness :
    signalTrapsCleanup (trapAndForwardSignalsToChildProcess [7] 3) 3 = [] ∧
    (signalTrapsCleanup (trapAndForwardSignalsToChildProcess [7] 3) 3 = [7] ↔
      ([7] : List Nat) = []) :=
  signalTraps_cleanup_removes_forwarder [7] 3

/-- Claim C6 witness: a real tunnel whose transport is still open. -/
theorem tunnel_close_idempotent_witness :
    (Tunnel.mk (some (BastionTunnel.mk false)) (FakeCloseEmitter.mk [] [])).close.close =
      (Tunnel.mk (some (BastionTunnel.mk false)) (FakeCloseEmitter.mk [] [])).close :=
  tunnel_close_idempotent (Tunnel.mk (some (BastionTunnel.mk false)) (FakeCloseEmitter.mk [] []))

/-- Claim C7 witness: a concrete transport error. -/
theorem waitForClose_transport_error_wrapped_witness :
    Tunnel.waitForCloseBastion
        (TransportEvent.errorEv { message := "read ECONNRESET", code := some "ECONNRESET" }) =
      Except.error { message := "Secure tunnel to your database failed", code := none } :=
  waitForClose_transport_error_wrapped { message := "read ECONNRESET", code := some "ECONNRESET" }

/-- Claim C8 witness: the raw OS error message of a failed spawn. -/
theorem waitForPSQLExit_enoent_install_help_witness :
    waitForPSQLExit (PsqlWaitEvent.errorEv { message := "spawn psql ENOENT", code := some "ENOENT" }) =
      Except.error { message := enoentHelpMessage, code := none } ∧
    waitForPSQLExit (PsqlWaitEvent.errorEv { message := "spawn psql ENOENT", code := some "ENOENT" }) ≠
      waitForPSQLExit (PsqlWaitEvent.closeEv (JsArg.intV 2) JsArg.nullV) :=
  waitForPSQLExit_enoent_install_help "spawn psql ENOENT"
